import Mathlib

/-!
Verification of the spatio-temporal graph construction pipeline in
`src/datasets/isr/pyg_dataloader_isr.py` (classes `ISRDataReader`,
`SpatioTemporalGraphBuilder`, `ISRDataLoader`).

Torch tensors of integer node indices are modelled as `List (Nat × Nat)`
edge lists (each `[n1, n2]` row becomes a pair); float32 matrices are
modelled as `List (List ℚ)` row lists.  The `.t().contiguous()` calls in
the source only change the storage layout of an edge tensor, not the set
or order of edges, so edge tensors are kept in row form throughout.
-/

/-- Python list slicing `l[:stop]` with a possibly negative stop index:
a nonnegative stop keeps the first `stop` elements (clamped to the length);
a negative stop counts from the end, so `l[:-k]` keeps all but the last `k`
elements (empty when `k ≥ len(l)`). -/
def pyTake {α : Type} (stop : Int) (l : List α) : List α :=
  if 0 ≤ stop then l.take stop.toNat else l.take (l.length - stop.natAbs)

/-- `ISRDataReader.__init__` line 19: `self.max_frames = 300`, the dataset-wide
frame-count cap ("Currently set at max of NGT200 dataset"). -/
def max_frames : Nat := 300

/-- Default holistic mediapipe inward edge set
(`SpatioTemporalGraphBuilder.__init__`, lines 201-204); 26 edges. -/
def default_inward_edges : List (Nat × Nat) :=
  [(2, 0), (1, 0), (0, 3), (0, 4), (3, 5), (4, 6), (5, 7), (6, 17),
   (7, 8), (7, 9), (9, 10), (7, 11), (11, 12), (7, 13), (13, 14),
   (7, 15), (15, 16), (17, 18), (17, 19), (19, 20), (17, 21), (21, 22),
   (17, 23), (23, 24), (17, 25), (25, 26)]

/-- One entry of the `data_dict` produced by `ISRDataReader._load_pose_data`
(lines 56-67).  `node_pos` is the transformed pose tensor of shape
`(2, frames, N)`, stored as channel / frame / node nested lists. -/
structure VideoData where
  label : Nat
  gloss : String
  node_pos : List (List (List ℚ))
  split : String
  view : Int
deriving DecidableEq

/-- `data['node_pos'].shape[1]`: the frame count of a `(2, frames, N)` tensor. -/
def nFrames (v : VideoData) : Nat := (v.node_pos.headD []).length

/-- `SpatioTemporalGraphBuilder.__init__` line 193:
`max(item['node_pos'].shape[1] for item in data_dict.values())`.
(The Python `max` raises on an empty dataset; the fold returns 0 there,
which no claim depends on.) -/
def maxNFrames (videos : List VideoData) : Nat :=
  (videos.map nFrames).foldl Nat.max 0

/-- `SpatioTemporalGraphBuilder._build_spatiotemporal_edges`, spatial part
(lines 237-245): for each frame in `range(F)` and each inward edge `(a, b)`,
the edge `(frame*Nn + a, frame*Nn + b)`, frame-major then edge-index-minor. -/
def buildSpatialEdges (F Nn : Nat) (inward : List (Nat × Nat)) : List (Nat × Nat) :=
  ((List.range F).map (fun frame =>
    inward.map (fun e => (frame * Nn + e.1, frame * Nn + e.2)))).flatten

/-- `SpatioTemporalGraphBuilder._build_spatiotemporal_edges`, temporal part
(lines 248-255): for each frame in `range(F - 1)` and node in `range(Nn)`,
the edge `(frame*Nn + node, (frame+1)*Nn + node)`. -/
def buildTemporalEdges (F Nn : Nat) : List (Nat × Nat) :=
  ((List.range (F - 1)).map (fun frame =>
    (List.range Nn).map (fun node =>
      (frame * Nn + node, (frame + 1) * Nn + node)))).flatten

/-- Row `i` of `np.eye(Nn)`. -/
def eyeRow (Nn i : Nat) : List ℚ :=
  (List.range Nn).map (fun j => if i = j then 1 else 0)

/-- `SpatioTemporalGraphBuilder._build_node_features` (lines 217-225):
`np.tile(np.eye(N), (1, F))`, an `N × (F·N)` matrix whose row `i` is row `i`
of the identity matrix repeated `F` times horizontally. -/
def landmarkFeatures (F Nn : Nat) : List (List ℚ) :=
  (List.range Nn).map (fun i => (List.replicate F (eyeRow Nn i)).flatten)

/-! ## Generic list helper lemmas -/

/-- Flattening lists that all have length `L` gives length `count * L`. -/
theorem length_flatten_uniform {α : Type} (L : Nat) :
    ∀ (xs : List (List α)), (∀ x ∈ xs, x.length = L) →
      xs.flatten.length = xs.length * L := by
  intro xs
  induction xs with
  | nil => intro _; simp
  | cons a as ih =>
      intro h
      simp only [List.flatten_cons, List.length_append, List.length_cons]
      rw [h a (List.mem_cons_self a as), ih (fun x hx => h x (List.mem_cons_of_mem a hx))]
      ring

/-- Taking an `a`-block prefix of a flattened `b`-block list of uniform block
length `L` gives exactly the flattened `a`-block list: the frame-major layout
makes prefix slicing exact. -/
theorem flatten_map_take {α : Type} (g : Nat → List α) (L : Nat)
    (hg : ∀ i, (g i).length = L) (a b : Nat) (hab : a ≤ b) :
    (((List.range b).map g).flatten).take (a * L) = ((List.range a).map g).flatten := by
  have hb : b = a + (b - a) := by omega
  rw [hb, List.range_add, List.map_append, List.flatten_append]
  have hlen : (((List.range a).map g).flatten).length = a * L := by
    have := length_flatten_uniform L ((List.range a).map g)
      (by intro x hx; obtain ⟨i, _, rfl⟩ := List.mem_map.mp hx; exact hg i)
    simpa using this
  rw [← hlen, List.take_left]

/-- The spatial template for `F` frames has `F * |inward|` rows. -/
theorem length_buildSpatialEdges (F Nn : Nat) (inward : List (Nat × Nat)) :
    (buildSpatialEdges F Nn inward).length = F * inward.length := by
  unfold buildSpatialEdges
  have := length_flatten_uniform inward.length
    ((List.range F).map (fun frame =>
      inward.map (fun e => (frame * Nn + e.1, frame * Nn + e.2))))
    (by intro x hx; obtain ⟨i, _, rfl⟩ := List.mem_map.mp hx; simp)
  simpa using this

/-- The temporal template for `F` frames has `(F - 1) * Nn` rows. -/
theorem length_buildTemporalEdges (F Nn : Nat) :
    (buildTemporalEdges F Nn).length = (F - 1) * Nn := by
  unfold buildTemporalEdges
  have := length_flatten_uniform Nn
    ((List.range (F - 1)).map (fun frame =>
      (List.range Nn).map (fun node => (frame * Nn + node, (frame + 1) * Nn + node))))
    (by intro x hx; obtain ⟨i, _, rfl⟩ := List.mem_map.mp hx; simp)
  simpa using this

/-! ## Claim C1 -/

/-- Claim C1: truncation-equivalence of the shared template.  For every frame
count `f` with `1 ≤ f ≤ F`, the first `f * |inward|` rows of the spatial edge
list and the first `(f-1) * Nn` rows of the temporal edge list built for `F`
frames are exactly the spatial and temporal edge lists a template built
directly for `f` frames would contain. -/
theorem c1_template_truncation_equivalence (F f Nn : Nat) (inward : List (Nat × Nat))
    (h1 : 1 ≤ f) (h2 : f ≤ F) :
    (buildSpatialEdges F Nn inward).take (f * inward.length) =
        buildSpatialEdges f Nn inward ∧
    (buildTemporalEdges F Nn).take ((f - 1) * Nn) = buildTemporalEdges f Nn := by
  refine ⟨?_, ?_⟩
  · unfold buildSpatialEdges
    exact flatten_map_take _ inward.length (fun i => by simp) f F h2
  · unfold buildTemporalEdges
    exact flatten_map_take _ Nn (fun i => by simp) (f - 1) (F - 1) (by omega)

/-- Witness for C1 at the spec's own scenario: template for `F = 4` frames,
`N = 3`, inward edges `[(1,0),(2,1)]`, truncated to `f = 2` frames. -/
theorem c1_template_truncation_equivalence_witness :
    (1 ≤ 2 ∧ 2 ≤ 4) ∧
    ((buildSpatialEdges 4 3 [(1, 0), (2, 1)]).take (2 * 2) =
        buildSpatialEdges 2 3 [(1, 0), (2, 1)] ∧
     (buildTemporalEdges 4 3).take ((2 - 1) * 3) = buildTemporalEdges 2 3) :=
  ⟨⟨by decide, by decide⟩,
   c1_template_truncation_equivalence 4 2 3 [(1, 0), (2, 1)] (by decide) (by decide)⟩

/-! ## Per-video assembly (`ISRDataReader._build_spatio_temporal_graph`) -/

/-- numpy-style transpose of a rectangular matrix given as a list of rows:
result row `j` collects entry `j` of every input row. -/
def matTranspose (m : List (List ℚ)) : List (List ℚ) :=
  (List.range (m.headD []).length).map (fun j => m.map (fun row => row.getD j 0))

/-- Line 154: `x = graph_constructor.landmark_features[:, :end_idx].T` with
`end_idx = int(n_frames * self.N_NODES)` (line 138) — note the uncapped
`n_frames`, not `min(n_frames, max_frames)`. -/
def videoFeatures (F Nn n : Nat) : List (List ℚ) :=
  matTranspose ((landmarkFeatures F Nn).map (List.take (n * Nn)))

/-- Lines 140-148: the spatial edge slice of a video with `n` frames,
`spatial_edges[:int(n * n_spatial_edges)]` when `n < max_frames`, else
`spatial_edges[:int(max_frames * n_spatial_edges)]`.  `E` is
`n_spatial_edges = len(inward_edges)`. -/
def videoSpatialEdges (tmplS : List (Nat × Nat)) (E n : Nat) : List (Nat × Nat) :=
  if n < max_frames then pyTake ((n : Int) * E) tmplS
  else pyTake ((max_frames : Int) * E) tmplS

/-- Lines 143-149: the temporal edge slice of a video with `n` frames,
`temporal_edges[:int((n - 1) * n_temporal_edges)]` when `n < max_frames`, else
`temporal_edges[:int((max_frames - 1) * n_temporal_edges)]`.  The stop index
is a Python int, so it is negative when `n = 0`.  `Nn` is
`n_temporal_edges = N_NODES`. -/
def videoTemporalEdges (tmplT : List (Nat × Nat)) (Nn n : Nat) : List (Nat × Nat) :=
  if n < max_frames then pyTake (((n : Int) - 1) * Nn) tmplT
  else pyTake (((max_frames : Int) - 1) * Nn) tmplT

/-- `SpatioTemporalGraphBuilder.reshape_nodes` (lines 258-259):
`pos_data.reshape(pos_data.shape[0], -1)` on a `(2, frames, N)` tensor, i.e.
each channel's `frames × N` block is flattened row-major into one row,
giving shape `(2, frames·N)`. -/
def reshape_nodes (p : List (List (List ℚ))) : List (List ℚ) := p.map List.flatten

/-- Reshaping one flattened channel row of length `f*Nn` back into `(f, Nn)`
blocks (the inverse direction of the round-trip law). -/
def unflattenRow (f Nn : Nat) (l : List ℚ) : List (List ℚ) :=
  (List.range f).map (fun i => (l.drop (i * Nn)).take Nn)

/-- The per-video record stored in `graph_dict[vid_id]` (lines 161-170).
Its `edges` field holds only the sliced *spatial* edges — the sliced temporal
edges computed on lines 143-150 are never stored. -/
structure GraphRecord where
  label : Nat
  gloss : String
  x : List (List ℚ)
  n_frames : Nat
  node_pos : List (List ℚ)
  edges : List (Nat × Nat)
  split : String
  view : Int
deriving DecidableEq

/-- One iteration of the loop in `ISRDataReader._build_spatio_temporal_graph`
(lines 132-170), for a video `v`, against the templates built for `F` frames. -/
def assembleRecord (F Nn : Nat) (inward : List (Nat × Nat)) (v : VideoData) : GraphRecord :=
  { label := v.label
    gloss := v.gloss
    x := videoFeatures F Nn (nFrames v)
    n_frames := nFrames v
    node_pos := reshape_nodes v.node_pos
    edges := videoSpatialEdges (buildSpatialEdges F Nn inward) inward.length (nFrames v)
    split := v.split
    view := v.view }

/-- `ISRDataReader._build_spatio_temporal_graph` (lines 117-172): the templates
are built once from the dataset-wide maximum frame count, then every video is
assembled against them.  The dict is modelled as an association list in
insertion order. -/
def buildSpatioTemporalGraph (Nn : Nat) (inward : List (Nat × Nat))
    (videos : List (String × VideoData)) : List (String × GraphRecord) :=
  videos.map (fun p =>
    (p.1, assembleRecord (maxNFrames (videos.map Prod.snd)) Nn inward p.2))

/-! ## Metadata / pose store (`ISRDataReader._load_pose_data`, lines 51-69) -/

/-- `ISRDataReader._load_pose_data`.  `glossDict` is `self.gloss_dict`: gloss ↦
list of `(video_id, split, camera_view)`.  `store` models the per-video pickle
files: `store vid = some kps` iff `os.path.exists(f'{vid}.pkl')`, in which case
`kps` is `pickle.load(...)["keypoints"][:, :, :2]`.  `transform` models
`self._transform_data`.  `labels[gloss]` is the enumeration index of the gloss
among the dict keys, i.e. its index in `glossDict.map Prod.fst`. -/
def loadPoseData (glossDict : List (String × List (String × String × Int)))
    (store : String → Option (List (List (List ℚ))))
    (transform : List (List (List ℚ)) → List (List (List ℚ))) :
    List (String × VideoData) :=
  (glossDict.map (fun g =>
    g.2.filterMap (fun inst =>
      (store inst.1).map (fun kps => (inst.1,
        { label := (glossDict.map Prod.fst).indexOf g.1
          gloss := g.1
          node_pos := transform kps
          split := inst.2.1
          view := inst.2.2 }))))).flatten

/-! ## Loader factory (`ISRDataLoader`, lines 262-312) -/

/-- One `torch_geometric.data.Data` object built on line 307.  `pos` is
`data['node_pos'].T`. -/
structure PygData where
  pos : List (List ℚ)
  x : List (List ℚ)
  edge_index : List (Nat × Nat)
  y : Nat
  n_frames : Nat
  view : Int
deriving DecidableEq

/-- `ISRDataLoader._load_data` (lines 298-312): in `spatio_temporal` mode each
graph gets its own `data['edges']` as edge index; otherwise the fixed
single-frame `per_frame` edge index is used for every graph.  Batching and
shuffling (the `DataLoader` call) are external and not modelled. -/
def loadData (temporal_configuration : String) (per_frame_edge_index : List (Nat × Nat))
    (d : List (String × GraphRecord)) : List PygData :=
  d.map (fun p =>
    { pos := matTranspose p.2.node_pos
      x := p.2.x
      edge_index := if temporal_configuration = "spatio_temporal" then p.2.edges
                    else per_frame_edge_index
      y := p.2.label
      n_frames := p.2.n_frames
      view := p.2.view })

/-- `ISRDataLoader._split_dataset` (lines 289-296): filter by exact `split`
string, then split the `test` part by integer `view` into views 0, 1, 2. -/
def splitDataset (d : List (String × GraphRecord)) :
    List (String × GraphRecord) × List (String × GraphRecord) ×
      List (List (String × GraphRecord)) :=
  (d.filter (fun p => p.2.split == "train"),
   d.filter (fun p => p.2.split == "val"),
   [d.filter (fun p => p.2.split == "test" && p.2.view == 0),
    d.filter (fun p => p.2.split == "test" && p.2.view == 1),
    d.filter (fun p => p.2.split == "test" && p.2.view == 2)])

/-- `ISRDataLoader.build_loaders` (lines 279-287).  Note: the source passes
`test_data[0]` to all three test loaders, exactly as reproduced here. -/
def buildLoaders (temporal_configuration : String) (per_frame_edge_index : List (Nat × Nat))
    (d : List (String × GraphRecord)) :
    List PygData × List PygData × List (List PygData) :=
  (loadData temporal_configuration per_frame_edge_index (splitDataset d).1,
   loadData temporal_configuration per_frame_edge_index (splitDataset d).2.1,
   [loadData temporal_configuration per_frame_edge_index ((splitDataset d).2.2.getD 0 []),
    loadData temporal_configuration per_frame_edge_index ((splitDataset d).2.2.getD 0 []),
    loadData temporal_configuration per_frame_edge_index ((splitDataset d).2.2.getD 0 [])])

/-! ## Concrete inputs used by witnesses and counterexamples -/

/-- One frame of 27 zeroed node coordinates. -/
def zeroFrame : List ℚ := List.replicate 27 0

/-- A 1-frame video (shape `(2, 1, 27)`). -/
def vid1 : VideoData := ⟨0, "one", [[zeroFrame], [zeroFrame]], "train", 0⟩

/-- A 2-frame video (shape `(2, 2, 27)`). -/
def vid2f : VideoData := ⟨0, "two", [[zeroFrame, zeroFrame], [zeroFrame, zeroFrame]], "train", 0⟩

/-- A 3-frame video (shape `(2, 3, 27)`). -/
def vid3 : VideoData :=
  ⟨1, "three", [List.replicate 3 zeroFrame, List.replicate 3 zeroFrame], "train", 0⟩

/-- A degenerate 0-frame video (shape `(2, 0, 27)`). -/
def vid0 : VideoData := ⟨2, "zero", [[], []], "train", 0⟩

/-- A 301-frame video, one frame over the `max_frames = 300` cap. -/
def vid301 : VideoData :=
  ⟨0, "long", [List.replicate 301 zeroFrame, List.replicate 301 zeroFrame], "train", 0⟩

/-- A 1-frame test video with camera view 0. -/
def vidT0 : VideoData := ⟨0, "sign", [[zeroFrame], [zeroFrame]], "test", 0⟩

/-- A 1-frame test video with camera view 1. -/
def vidT1 : VideoData := ⟨1, "sign", [[zeroFrame], [zeroFrame]], "test", 1⟩

/-- Default value for safe list indexing into record lists. -/
def dummyRecord : GraphRecord := ⟨0, "", [], 0, [], [], "", 0⟩

/-- Default value for safe list indexing into `PygData` lists. -/
def dummyPyg : PygData := ⟨[], [], [], 0, 0, 0⟩

/-- A tiny `(2, 1, 2)` pose tensor: 1 frame, 2 nodes. -/
def pose12 : List (List (List ℚ)) := [[[1, 2]], [[3, 4]]]

/-! ## Claim C2 -/

/-- Claim C2 (code evaluated at the failing input): for a dataset holding a
single 2-frame video, the assembled record's `edges` field has the
`2 * 26` sliced spatial rows, and the temporal slice computed during assembly
(lines 143-144) has `(2-1) * 27 = 27` rows — but the record contains zero
temporal-form edges (pairs `(n, n + 27)` linking consecutive frames): the
temporal slice is discarded, so the record does not contain the
`max(0, f-1) × N` temporal edges the claim asserts. -/
theorem c2_record_has_no_temporal_edges :
    ((buildSpatioTemporalGraph 27 default_inward_edges [("w", vid2f)]).headD
        ("", dummyRecord)).2.edges.length = 2 * 26 ∧
    (videoTemporalEdges (buildTemporalEdges 2 27) 27 (nFrames vid2f)).length = 1 * 27 ∧
    ((buildSpatioTemporalGraph 27 default_inward_edges [("w", vid2f)]).headD
        ("", dummyRecord)).2.edges.countP (fun e => e.2 == e.1 + 27) = 0 := by
  decide

/-! ## Claim C3 -/

/-- Claim C3 (code evaluated at the failing input): in `spatio_temporal` mode,
the `edge_index` attached to the graph of a 2-frame video equals its truncated
*spatial* slice only; the truncated temporal slice has 27 rows and none of
them appears in the attached edge index, contradicting the claim that the
edge index contains both. -/
theorem c3_edge_index_spatial_only :
    ((loadData "spatio_temporal" default_inward_edges
        (buildSpatioTemporalGraph 27 default_inward_edges [("w", vid2f)])).headD
          dummyPyg).edge_index =
      videoSpatialEdges (buildSpatialEdges 2 27 default_inward_edges) 26 2 ∧
    (videoTemporalEdges (buildTemporalEdges 2 27) 27 2).length = 1 * 27 ∧
    (∀ e ∈ videoTemporalEdges (buildTemporalEdges 2 27) 27 2,
      e ∉ ((loadData "spatio_temporal" default_inward_edges
        (buildSpatioTemporalGraph 27 default_inward_edges [("w", vid2f)])).headD
          dummyPyg).edge_index) := by
  decide

/-! ## Length lemmas for the per-video slices -/

/-- `pyTake` with a natural-number stop is an ordinary `take`. -/
theorem pyTake_natCast {α : Type} (k : Nat) (l : List α) :
    pyTake (k : Int) l = l.take k := by
  unfold pyTake
  rw [if_pos (Int.natCast_nonneg k)]
  simp

/-- A fold of `Nat.max` never goes below its initial value. -/
theorem le_foldl_max_init : ∀ (xs : List Nat) (a : Nat), a ≤ xs.foldl Nat.max a := by
  intro xs
  induction xs with
  | nil => intro a; simp
  | cons x xs ih =>
      intro a
      simp only [List.foldl_cons]
      exact le_trans (Nat.le_max_left a x) (ih (Nat.max a x))

/-- Every member of a list is bounded by the `Nat.max` fold over it. -/
theorem mem_le_foldl_max : ∀ (xs : List Nat) (a x : Nat), x ∈ xs → x ≤ xs.foldl Nat.max a := by
  intro xs
  induction xs with
  | nil => intro a x hx; cases hx
  | cons y ys ih =>
      intro a x hx
      simp only [List.foldl_cons]
      rcases List.mem_cons.mp hx with h | h
      · subst h
        exact le_trans (Nat.le_max_right a x) (le_foldl_max_init ys (Nat.max a x))
      · exact ih (Nat.max a y) x h

/-- Every video's frame count is bounded by the dataset-wide maximum the
builder computes. -/
theorem nFrames_le_maxNFrames (videos : List (String × VideoData)) (id : String)
    (v : VideoData) (h : (id, v) ∈ videos) :
    nFrames v ≤ maxNFrames (videos.map Prod.snd) := by
  unfold maxNFrames
  exact mem_le_foldl_max _ 0 _
    (List.mem_map.mpr ⟨v, List.mem_map.mpr ⟨(id, v), h, rfl⟩, rfl⟩)

/-- The sliced spatial edge list covers exactly `min n max_frames` frames. -/
theorem videoSpatialEdges_length (F Nn n : Nat) (inward : List (Nat × Nat))
    (hF : n ≤ F) :
    (videoSpatialEdges (buildSpatialEdges F Nn inward) inward.length n).length =
      min n max_frames * inward.length := by
  unfold videoSpatialEdges
  by_cases h : n < max_frames
  · rw [if_pos h]
    have hcast : ((n : Int) * (inward.length : Int)) = ((n * inward.length : Nat) : Int) := by
      push_cast
      ring
    rw [hcast, pyTake_natCast, List.length_take, length_buildSpatialEdges]
    rw [Nat.min_eq_left (Nat.mul_le_mul_right _ hF), Nat.min_eq_left (Nat.le_of_lt h)]
  · rw [if_neg h]
    have h300 : max_frames ≤ n := Nat.le_of_not_lt h
    have hcast : ((max_frames : Int) * (inward.length : Int)) =
        ((max_frames * inward.length : Nat) : Int) := by
      push_cast
      ring
    rw [hcast, pyTake_natCast, List.length_take, length_buildSpatialEdges]
    rw [Nat.min_eq_left (Nat.mul_le_mul_right _ (le_trans h300 hF)), Nat.min_eq_right h300]

/-- For a video with at least one frame, the sliced temporal edge list covers
exactly `min n max_frames - 1` frame transitions. -/
theorem videoTemporalEdges_length (F Nn n : Nat) (hF : n ≤ F) (h1 : 1 ≤ n) :
    (videoTemporalEdges (buildTemporalEdges F Nn) Nn n).length =
      (min n max_frames - 1) * Nn := by
  unfold videoTemporalEdges
  by_cases h : n < max_frames
  · rw [if_pos h]
    have hcast : (((n : Int) - 1) * (Nn : Int)) = (((n - 1) * Nn : Nat) : Int) := by
      rw [Nat.cast_mul, Nat.cast_sub h1, Nat.cast_one]
    rw [hcast, pyTake_natCast, List.length_take, length_buildTemporalEdges]
    have hle : (n - 1) * Nn ≤ (F - 1) * Nn := Nat.mul_le_mul_right _ (by omega)
    rw [Nat.min_eq_left hle, Nat.min_eq_left (Nat.le_of_lt h)]
  · rw [if_neg h]
    have h300 : max_frames ≤ n := Nat.le_of_not_lt h
    have hcast : (((max_frames : Int) - 1) * (Nn : Int)) =
        (((max_frames - 1) * Nn : Nat) : Int) := by
      rw [Nat.cast_mul, Nat.cast_sub (by decide : 1 ≤ max_frames), Nat.cast_one]
    rw [hcast, pyTake_natCast, List.length_take, length_buildTemporalEdges]
    have hle : (max_frames - 1) * Nn ≤ (F - 1) * Nn :=
      Nat.mul_le_mul_right _ (by omega)
    rw [Nat.min_eq_left hle, Nat.min_eq_right h300]

/-- The transposed feature slice `landmark_features[:, :n*Nn].T` has `n * Nn`
rows — the slice bound is the *uncapped* frame count `n`. -/
theorem videoFeatures_length (F Nn n : Nat) (hF : n ≤ F) (hN : 1 ≤ Nn) :
    (videoFeatures F Nn n).length = n * Nn := by
  obtain ⟨k, rfl⟩ : ∃ k, Nn = k + 1 := ⟨Nn - 1, by omega⟩
  unfold videoFeatures matTranspose landmarkFeatures
  rw [List.length_map, List.length_range]
  rw [List.range_succ_eq_map]
  simp only [List.map_cons, List.headD_cons]
  rw [List.length_take]
  have hflat : (List.replicate F (eyeRow (k + 1) 0)).flatten.length = F * (k + 1) := by
    have := length_flatten_uniform (k + 1) (List.replicate F (eyeRow (k + 1) 0))
      (by intro x hx
          have hx' := List.eq_of_mem_replicate hx
          subst hx'
          simp [eyeRow])
    simpa using this
  rw [hflat, Nat.min_eq_left (Nat.mul_le_mul_right _ hF)]

/-! ## Claim C4 -/

/-- Claim C4 counterexample: for a dataset holding a single 301-frame video
(one frame over the `max_frames = 300` cap), the assembled record's node
feature matrix has `301 * 27 = 8127` rows, not the `max_frames * 27 = 8100`
rows the claim asserts: the cap is not applied to the feature slice. -/
theorem c4_feature_matrix_not_capped :
    ((buildSpatioTemporalGraph 27 default_inward_edges [("v", vid301)]).headD
        ("", dummyRecord)).2.x.length ≠ max_frames * 27 := by
  have hn : nFrames vid301 = 301 := by
    show ([List.replicate 301 zeroFrame, List.replicate 301 zeroFrame].headD []).length = 301
    rw [List.headD_cons, List.length_replicate]
  have hmax : maxNFrames [vid301] = 301 := by
    unfold maxNFrames
    rw [List.map_cons, List.map_nil, hn]
    rfl
  have hx := videoFeatures_length 301 27 301 (le_refl 301) (by omega)
  simp only [buildSpatioTemporalGraph, List.map_cons, List.map_nil, List.headD_cons,
    assembleRecord]
  rw [hmax, hn, hx]
  decide

/-- Claim C4 amended: assembly applies the capped frame count
`f = min(n, max_frames)` to the spatial and temporal edge slices, but slices
the node role-feature matrix with the *uncapped* frame count `n`: the
node-major feature matrix has `n × N` rows (each of length `N`), so for a
video whose frame count exceeds the cap it has `n × N` rows, not
`max_frames × N`. -/
theorem c4_amended_cap_applies_to_edges_only (videos : List (String × VideoData))
    (id : String) (v : VideoData) (hv : (id, v) ∈ videos) (h1 : 1 ≤ nFrames v) :
    (assembleRecord (maxNFrames (videos.map Prod.snd)) 27 default_inward_edges v).edges.length =
      min (nFrames v) max_frames * 26 ∧
    (videoTemporalEdges (buildTemporalEdges (maxNFrames (videos.map Prod.snd)) 27) 27
        (nFrames v)).length = (min (nFrames v) max_frames - 1) * 27 ∧
    (assembleRecord (maxNFrames (videos.map Prod.snd)) 27 default_inward_edges v).x.length =
      nFrames v * 27 ∧
    (∀ row ∈ (assembleRecord (maxNFrames (videos.map Prod.snd)) 27 default_inward_edges v).x,
      row.length = 27) := by
  have hF := nFrames_le_maxNFrames videos id v hv
  have h26 : default_inward_edges.length = 26 := rfl
  refine ⟨?_, ?_, ?_, ?_⟩
  · simp only [assembleRecord]
    rw [videoSpatialEdges_length _ 27 _ default_inward_edges hF, h26]
  · exact videoTemporalEdges_length _ 27 _ hF h1
  · simp only [assembleRecord]
    exact videoFeatures_length _ 27 _ hF (by omega)
  · intro row hrow
    simp only [assembleRecord, videoFeatures, matTranspose] at hrow
    obtain ⟨j, hj, rfl⟩ := List.mem_map.mp hrow
    simp [landmarkFeatures]

/-- Witness for the amended C4 at a dataset holding a single 1-frame video. -/
theorem c4_amended_cap_applies_to_edges_only_witness :
    ((("a", vid1) ∈ [("a", vid1)]) ∧ 1 ≤ nFrames vid1) ∧
    ((assembleRecord (maxNFrames ([("a", vid1)].map Prod.snd)) 27 default_inward_edges
        vid1).edges.length = min (nFrames vid1) max_frames * 26 ∧
     (videoTemporalEdges (buildTemporalEdges (maxNFrames ([("a", vid1)].map Prod.snd)) 27) 27
        (nFrames vid1)).length = (min (nFrames vid1) max_frames - 1) * 27 ∧
     (assembleRecord (maxNFrames ([("a", vid1)].map Prod.snd)) 27 default_inward_edges
        vid1).x.length = nFrames vid1 * 27 ∧
     (∀ row ∈ (assembleRecord (maxNFrames ([("a", vid1)].map Prod.snd)) 27
          default_inward_edges vid1).x, row.length = 27)) :=
  ⟨⟨List.mem_cons_self _ _, by decide⟩,
   c4_amended_cap_applies_to_edges_only [("a", vid1)] "a" vid1
     (List.mem_cons_self _ _) (by decide)⟩

/-! ## Claim C10 -/

/-- Claim C10: the `n_frames` field of every assembled record stores the
video's original reduced-pose frame count without the `max_frames = 300` cap;
for a video longer than the cap the stored edge list covers only
`max_frames` frames (`max_frames * 26` rows), strictly fewer rows than
`n_frames * 26`, so `n_frames` exceeds the frame span of the edge list. -/
theorem c10_n_frames_field_uncapped (videos : List (String × VideoData)) (id : String)
    (v : VideoData) (hv : (id, v) ∈ videos) :
    (assembleRecord (maxNFrames (videos.map Prod.snd)) 27 default_inward_edges v).n_frames =
      nFrames v ∧
    (max_frames < nFrames v →
      (assembleRecord (maxNFrames (videos.map Prod.snd)) 27 default_inward_edges
          v).edges.length = max_frames * 26 ∧
      (assembleRecord (maxNFrames (videos.map Prod.snd)) 27 default_inward_edges
          v).edges.length <
        (assembleRecord (maxNFrames (videos.map Prod.snd)) 27 default_inward_edges
          v).n_frames * 26) := by
  have hF := nFrames_le_maxNFrames videos id v hv
  have h26 : default_inward_edges.length = 26 := rfl
  refine ⟨rfl, fun hcap => ?_⟩
  have hlen := videoSpatialEdges_length (maxNFrames (videos.map Prod.snd)) 27 (nFrames v)
    default_inward_edges hF
  rw [Nat.min_eq_right (Nat.le_of_lt hcap)] at hlen
  constructor
  · simp only [assembleRecord]
    rw [hlen, h26]
  · simp only [assembleRecord]
    rw [hlen, h26]
    exact mul_lt_mul_of_pos_right hcap (by decide)

/-- Witness for C10 at a dataset holding a single 301-frame video. -/
theorem c10_n_frames_field_uncapped_witness :
    (("v", vid301) ∈ [("v", vid301)]) ∧
    ((assembleRecord (maxNFrames ([("v", vid301)].map Prod.snd)) 27 default_inward_edges
        vid301).n_frames = nFrames vid301 ∧
     (max_frames < nFrames vid301 →
       (assembleRecord (maxNFrames ([("v", vid301)].map Prod.snd)) 27 default_inward_edges
           vid301).edges.length = max_frames * 26 ∧
       (assembleRecord (maxNFrames ([("v", vid301)].map Prod.snd)) 27 default_inward_edges
           vid301).edges.length <
         (assembleRecord (maxNFrames ([("v", vid301)].map Prod.snd)) 27 default_inward_edges
           vid301).n_frames * 26)) :=
  ⟨List.mem_cons_self _ _,
   c10_n_frames_field_uncapped [("v", vid301)] "v" vid301 (List.mem_cons_self _ _)⟩

/-- Dropping a whole leading block plus `k` skips the block. -/
theorem drop_append_add {α : Type} : ∀ (A B : List α) (k : Nat),
    (A ++ B).drop (A.length + k) = B.drop k := by
  intro A
  induction A with
  | nil => intro B k; simp
  | cons a A ih =>
      intro B k
      show (a :: (A ++ B)).drop (A.length + 1 + k) = B.drop k
      rw [show A.length + 1 + k = (A.length + k) + 1 by omega]
      rw [List.drop_succ_cons]
      exact ih B k

/-- Cutting a flattened channel (whose frames all have length `Nn`) back into
`ch.length` blocks of `Nn` recovers the channel. -/
theorem unflattenRow_flatten (Nn : Nat) :
    ∀ (ch : List (List ℚ)), (∀ fr ∈ ch, fr.length = Nn) →
      unflattenRow ch.length Nn ch.flatten = ch := by
  intro ch
  induction ch with
  | nil => intro _; rfl
  | cons fr rest ih =>
      intro h
      have hfr : fr.length = Nn := h fr (List.mem_cons_self fr rest)
      unfold unflattenRow
      rw [List.flatten_cons, List.length_cons, List.range_succ_eq_map, List.map_cons,
        List.map_map]
      congr 1
      · rw [Nat.zero_mul, List.drop_zero, ← hfr, List.take_left]
      · have hstep : ∀ i ∈ List.range rest.length,
            ((fr ++ rest.flatten).drop (Nat.succ i * Nn)).take Nn =
              (rest.flatten.drop (i * Nn)).take Nn := by
          intro i hi
          rw [show Nat.succ i * Nn = fr.length + i * Nn by
            rw [hfr, Nat.succ_mul]; exact Nat.add_comm _ _, drop_append_add]
        have hrest := ih (fun fr' h' => h fr' (List.mem_cons_of_mem _ h'))
        unfold unflattenRow at hrest
        refine Eq.trans (List.map_congr_left ?_) hrest
        intro i hi
        simpa using hstep i hi

/-! ## Claim C5 -/

/-- Claim C5 counterexample: for the concrete `(2, 1, 2)` pose tensor
`pose12` (1 frame, 2 nodes), `reshape_nodes` returns the `(2, 2)` matrix
`[[1, 2], [3, 4]]` — two channel rows — not a `(frames, 2N) = (1, 4)` array:
its row count is 2, not the frame count 1 the claim's shape requires. -/
theorem c5_reshape_is_channel_major :
    reshape_nodes pose12 = [[1, 2], [3, 4]] ∧ (reshape_nodes pose12).length ≠ 1 := by
  decide

/-- Claim C5 amended: the assembler flattens the reduced pose tensor of shape
`(2, frames, N)` into shape `(2, frames·N)` — one row per coordinate channel,
row-major by frame with nodes in node-selection order within each frame — and
this flattening round-trips: cutting each flattened channel row back into
`frames` blocks of `N` recovers the original tensor exactly. -/
theorem c5_amended_reshape_round_trip (p : List (List (List ℚ))) (f Nn : Nat)
    (hp : p.length = 2) (hf : ∀ ch ∈ p, ch.length = f)
    (hN : ∀ ch ∈ p, ∀ fr ∈ ch, fr.length = Nn) :
    (reshape_nodes p).length = 2 ∧
    (∀ row ∈ reshape_nodes p, row.length = f * Nn) ∧
    (reshape_nodes p).map (unflattenRow f Nn) = p := by
  refine ⟨by simp [reshape_nodes, hp], ?_, ?_⟩
  · intro row hrow
    unfold reshape_nodes at hrow
    obtain ⟨ch, hch, rfl⟩ := List.mem_map.mp hrow
    rw [length_flatten_uniform Nn ch (hN ch hch), hf ch hch]
  · unfold reshape_nodes
    rw [List.map_map]
    have hpt : ∀ ch ∈ p, unflattenRow f Nn ch.flatten = ch := by
      intro ch hch
      rw [← hf ch hch]
      exact unflattenRow_flatten Nn ch (hN ch hch)
    calc p.map (unflattenRow f Nn ∘ List.flatten)
        = p.map id := List.map_congr_left (by intro ch hch; simpa using hpt ch hch)
      _ = p := List.map_id p

/-- Witness for the amended C5 at the concrete `(2, 1, 2)` tensor `pose12`. -/
theorem c5_amended_reshape_round_trip_witness :
    (pose12.length = 2 ∧ (∀ ch ∈ pose12, ch.length = 1) ∧
      (∀ ch ∈ pose12, ∀ fr ∈ ch, fr.length = 2)) ∧
    ((reshape_nodes pose12).length = 2 ∧
     (∀ row ∈ reshape_nodes pose12, row.length = 1 * 2) ∧
     (reshape_nodes pose12).map (unflattenRow 1 2) = pose12) :=
  ⟨⟨by decide, by decide, by decide⟩,
   c5_amended_reshape_round_trip pose12 1 2 (by decide) (by decide) (by decide)⟩

/-! ## Claim C6 -/

/-- `getD` on a flattened replication of a length-`Nn` block, at block-local
index `n` inside block `f`, reads the block itself. -/
theorem getD_flatten_replicate (r : List ℚ) (Nn : Nat) (hr : r.length = Nn) :
    ∀ (F f n : Nat), f < F → n < Nn →
      ((List.replicate F r).flatten).getD (f * Nn + n) 0 = r.getD n 0 := by
  intro F
  induction F with
  | zero => intro f n hf _; omega
  | succ F ih =>
      intro f n hf hn
      rw [List.replicate_succ, List.flatten_cons]
      cases f with
      | zero =>
          rw [Nat.zero_mul, Nat.zero_add]
          exact List.getD_append _ _ 0 n (by omega)
      | succ f =>
          have hidx : Nat.succ f * Nn + n = r.length + (f * Nn + n) := by
            rw [hr, Nat.succ_mul]
            omega
          rw [hidx, List.getD_append_right _ _ 0 _ (Nat.le_add_right _ _),
            Nat.add_sub_cancel_left]
          exact ih f n (by omega) hn

/-- `getD` on a `map` over `range` evaluates the mapped function. -/
theorem getD_map_range {α : Type} (g : Nat → α) (Nn n : Nat) (d : α) (h : n < Nn) :
    ((List.range Nn).map g).getD n d = g n := by
  rw [List.getD_eq_getElem _ _ (by simpa using h)]
  simp

/-- Claim C6: in the built topology template, for every node index `n < Nn`
and frame index `f < F`, the role-feature column of graph node `f*Nn + n`
equals the one-hot vector of length `Nn` with a 1 at position `n` and 0
elsewhere, independent of `f`. -/
theorem c6_role_features_one_hot (F Nn f n : Nat) (hf : f < F) (hn : n < Nn) :
    (landmarkFeatures F Nn).map (fun row => row.getD (f * Nn + n) 0) =
      (List.range Nn).map (fun i => if i = n then (1 : ℚ) else 0) := by
  unfold landmarkFeatures
  rw [List.map_map]
  apply List.map_congr_left
  intro i hi
  simp only [Function.comp_apply]
  rw [getD_flatten_replicate (eyeRow Nn i) Nn (by simp [eyeRow]) F f n hf hn]
  unfold eyeRow
  rw [getD_map_range _ Nn n 0 hn]

/-- Witness for C6: template for 2 frames and 3 nodes, column of node
`1*3 + 2` (frame 1, node 2). -/
theorem c6_role_features_one_hot_witness :
    (1 < 2 ∧ 2 < 3) ∧
    (landmarkFeatures 2 3).map (fun row => row.getD (1 * 3 + 2) 0) =
      (List.range 3).map (fun i => if i = 2 then (1 : ℚ) else 0) :=
  ⟨⟨by decide, by decide⟩, c6_role_features_one_hot 2 3 1 2 (by decide) (by decide)⟩

/-! ## Claim C7 -/

/-- Claim C7 (code evaluated at the failing input): for a dataset with one
view-0 test video and one view-1 test video, the view-1 test partition built
by `_split_dataset` holds exactly the view-1 record, yet the second test
loader holds the view-0 record: `build_loaders` passes `test_data[0]` to all
three test loaders, so the i-th test loader is not built from the view-i
partition. -/
theorem c7_test_loaders_all_use_view0 :
    (((splitDataset (buildSpatioTemporalGraph 27 default_inward_edges
        [("t0", vidT0), ("t1", vidT1)])).2.2.getD 1 []).map (fun p => p.2.view) = [1]) ∧
    (((buildLoaders "spatio_temporal" default_inward_edges
        (buildSpatioTemporalGraph 27 default_inward_edges
          [("t0", vidT0), ("t1", vidT1)])).2.2.getD 1 []).map (fun d => d.view) = [0]) := by
  decide

/-! ## Claim C8 -/

/-- Claim C8 counterexample: in a dataset whose maximum frame count is 3, the
temporal slice of a 0-frame video is `temporal_edges[:-27]` by Python
negative slicing — 27 of the template's 54 rows — not the empty list the
claim asserts for every video with fewer than 2 frames. -/
theorem c8_zero_frame_temporal_not_empty :
    (videoTemporalEdges
        (buildTemporalEdges (maxNFrames ([("a", vid0), ("b", vid3)].map Prod.snd)) 27) 27
        (nFrames vid0)).length = 27 ∧
    videoTemporalEdges
        (buildTemporalEdges (maxNFrames ([("a", vid0), ("b", vid3)].map Prod.snd)) 27) 27
        (nFrames vid0) ≠ [] := by
  decide

/-- Claim C8 amended: assembly always succeeds for a video with fewer than
2 frames (its record is produced), and a 1-frame video's temporal slice is
empty; but a 0-frame video's temporal slice is the temporal template with its
last `N` rows dropped (Python negative slicing, stop index `(0-1)*N = -N`),
which is nonempty whenever the dataset-wide maximum frame count is ≥ 3. -/
theorem c8_amended_degenerate_frame_counts (videos : List (String × VideoData))
    (id : String) (v : VideoData) (hv : (id, v) ∈ videos) (_hle : nFrames v ≤ 1) :
    ((id, assembleRecord (maxNFrames (videos.map Prod.snd)) 27 default_inward_edges v) ∈
        buildSpatioTemporalGraph 27 default_inward_edges videos) ∧
    (nFrames v = 1 →
      videoTemporalEdges (buildTemporalEdges (maxNFrames (videos.map Prod.snd)) 27) 27
        (nFrames v) = []) ∧
    (nFrames v = 0 →
      videoTemporalEdges (buildTemporalEdges (maxNFrames (videos.map Prod.snd)) 27) 27
          (nFrames v) =
        (buildTemporalEdges (maxNFrames (videos.map Prod.snd)) 27).take
          ((maxNFrames (videos.map Prod.snd) - 1) * 27 - 27) ∧
      (3 ≤ maxNFrames (videos.map Prod.snd) →
        videoTemporalEdges (buildTemporalEdges (maxNFrames (videos.map Prod.snd)) 27) 27
          (nFrames v) ≠ [])) := by
  refine ⟨?_, ?_, ?_⟩
  · unfold buildSpatioTemporalGraph
    exact List.mem_map.mpr ⟨(id, v), hv, rfl⟩
  · intro h1
    rw [h1]
    unfold videoTemporalEdges
    rw [if_pos (by decide)]
    unfold pyTake
    rw [if_pos (by decide)]
    rw [show ((((1 : Nat) : Int) - 1) * ((27 : Nat) : Int)).toNat = 0 from by decide]
    exact List.take_zero _
  · intro h0
    have heq : videoTemporalEdges
        (buildTemporalEdges (maxNFrames (videos.map Prod.snd)) 27) 27 (nFrames v) =
        (buildTemporalEdges (maxNFrames (videos.map Prod.snd)) 27).take
          ((maxNFrames (videos.map Prod.snd) - 1) * 27 - 27) := by
      rw [h0]
      unfold videoTemporalEdges
      rw [if_pos (by decide)]
      unfold pyTake
      rw [if_neg (by decide)]
      rw [show ((((0 : Nat) : Int) - 1) * ((27 : Nat) : Int)).natAbs = 27 from by decide]
      rw [length_buildTemporalEdges]
    refine ⟨heq, fun h3 => ?_⟩
    rw [heq]
    intro hnil
    have hlen := congrArg List.length hnil
    rw [List.length_take, length_buildTemporalEdges] at hlen
    simp only [List.length_nil] at hlen
    omega

/-- Witness for the amended C8 at a dataset holding a 1-frame video and a
3-frame video. -/
theorem c8_amended_degenerate_frame_counts_witness :
    ((("a", vid1) ∈ [("a", vid1), ("b", vid3)]) ∧ nFrames vid1 ≤ 1) ∧
    (((("a", assembleRecord (maxNFrames ([("a", vid1), ("b", vid3)].map Prod.snd)) 27
          default_inward_edges vid1)) ∈
        buildSpatioTemporalGraph 27 default_inward_edges [("a", vid1), ("b", vid3)]) ∧
     (nFrames vid1 = 1 →
       videoTemporalEdges
         (buildTemporalEdges (maxNFrames ([("a", vid1), ("b", vid3)].map Prod.snd)) 27) 27
         (nFrames vid1) = []) ∧
     (nFrames vid1 = 0 →
       videoTemporalEdges
           (buildTemporalEdges (maxNFrames ([("a", vid1), ("b", vid3)].map Prod.snd)) 27) 27
           (nFrames vid1) =
         (buildTemporalEdges (maxNFrames ([("a", vid1), ("b", vid3)].map Prod.snd)) 27).take
           ((maxNFrames ([("a", vid1), ("b", vid3)].map Prod.snd) - 1) * 27 - 27) ∧
       (3 ≤ maxNFrames ([("a", vid1), ("b", vid3)].map Prod.snd) →
         videoTemporalEdges
           (buildTemporalEdges (maxNFrames ([("a", vid1), ("b", vid3)].map Prod.snd)) 27) 27
           (nFrames vid1) ≠ []))) :=
  ⟨⟨List.mem_cons_self _ _, by decide⟩,
   c8_amended_degenerate_frame_counts [("a", vid1), ("b", vid3)] "a" vid1
     (List.mem_cons_self _ _) (by decide)⟩

/-! ## Claim C9 -/

/-- A video id occurs among the keys produced by `_load_pose_data` only if its
keypoint record exists in the store (the dict comprehension is guarded by
`os.path.exists`). -/
theorem mem_loadPoseData_store_isSome
    (glossDict : List (String × List (String × String × Int)))
    (store : String → Option (List (List (List ℚ))))
    (transform : List (List (List ℚ)) → List (List (List ℚ)))
    (vid : String)
    (h : vid ∈ (loadPoseData glossDict store transform).map Prod.fst) :
    (store vid).isSome := by
  unfold loadPoseData at h
  obtain ⟨pair, hpair, rfl⟩ := List.mem_map.mp h
  obtain ⟨block, hblock, hpb⟩ := List.mem_flatten.mp hpair
  obtain ⟨g, hg, rfl⟩ := List.mem_map.mp hblock
  obtain ⟨inst, hinst, hsome⟩ := List.mem_filterMap.mp hpb
  obtain ⟨kps, hk, hpair'⟩ := Option.map_eq_some'.mp hsome
  cases hpair'
  rw [hk]
  rfl

/-- Claim C9: for every video id listed in the annotation metadata whose
keypoint record is missing from the store (`store vid = none`), the video is
silently excluded: it is not a key of the loaded data dict, not a key of the
assembled graph dict, and no record for it appears in the train partition,
the val partition, or any of the three test-view partitions.  (All the
modelled loading functions are total, so no error is raised.) -/
theorem c9_missing_keypoint_file_excluded
    (glossDict : List (String × List (String × String × Int)))
    (store : String → Option (List (List (List ℚ))))
    (transform : List (List (List ℚ)) → List (List (List ℚ)))
    (vid : String)
    (_hmeta : ∃ g ∈ glossDict, ∃ inst ∈ g.2, inst.1 = vid)
    (hmiss : store vid = none) :
    vid ∉ (loadPoseData glossDict store transform).map Prod.fst ∧
    (∀ p ∈ buildSpatioTemporalGraph 27 default_inward_edges
        (loadPoseData glossDict store transform), p.1 ≠ vid) ∧
    (∀ p ∈ (splitDataset (buildSpatioTemporalGraph 27 default_inward_edges
        (loadPoseData glossDict store transform))).1, p.1 ≠ vid) ∧
    (∀ p ∈ (splitDataset (buildSpatioTemporalGraph 27 default_inward_edges
        (loadPoseData glossDict store transform))).2.1, p.1 ≠ vid) ∧
    (∀ part ∈ (splitDataset (buildSpatioTemporalGraph 27 default_inward_edges
        (loadPoseData glossDict store transform))).2.2, ∀ p ∈ part, p.1 ≠ vid) := by
  have hkey : vid ∉ (loadPoseData glossDict store transform).map Prod.fst := by
    intro hmem
    have hsome := mem_loadPoseData_store_isSome glossDict store transform vid hmem
    rw [hmiss] at hsome
    simp at hsome
  have hbuild : ∀ p ∈ buildSpatioTemporalGraph 27 default_inward_edges
      (loadPoseData glossDict store transform), p.1 ≠ vid := by
    intro p hp heq
    unfold buildSpatioTemporalGraph at hp
    obtain ⟨q, hq, rfl⟩ := List.mem_map.mp hp
    exact hkey (List.mem_map.mpr ⟨q, hq, heq⟩)
  refine ⟨hkey, hbuild, ?_, ?_, ?_⟩
  · intro p hp
    exact hbuild p (List.mem_of_mem_filter hp)
  · intro p hp
    exact hbuild p (List.mem_of_mem_filter hp)
  · intro part hpart p hp
    simp only [splitDataset, List.mem_cons, List.not_mem_nil, or_false] at hpart
    rcases hpart with rfl | rfl | rfl
    · exact hbuild p (List.mem_of_mem_filter hp)
    · exact hbuild p (List.mem_of_mem_filter hp)
    · exact hbuild p (List.mem_of_mem_filter hp)

/-- Concrete metadata: one gloss with two instances, videos `v1` and `v2`. -/
def glossDict0 : List (String × List (String × String × Int)) :=
  [("hello", [("v1", "train", 0), ("v2", "val", 1)])]

/-- Concrete keypoint store: only `v1.pkl` exists; `v2` has no record. -/
def store0 : String → Option (List (List (List ℚ))) :=
  fun s => if s = "v1" then some [[zeroFrame], [zeroFrame]] else none

/-- Witness for C9: `v2` is listed in the metadata, has no keypoint record in
`store0`, and is excluded everywhere. -/
theorem c9_missing_keypoint_file_excluded_witness :
    ((∃ g ∈ glossDict0, ∃ inst ∈ g.2, inst.1 = "v2") ∧ store0 "v2" = none) ∧
    ("v2" ∉ (loadPoseData glossDict0 store0 id).map Prod.fst ∧
     (∀ p ∈ buildSpatioTemporalGraph 27 default_inward_edges
         (loadPoseData glossDict0 store0 id), p.1 ≠ "v2") ∧
     (∀ p ∈ (splitDataset (buildSpatioTemporalGraph 27 default_inward_edges
         (loadPoseData glossDict0 store0 id))).1, p.1 ≠ "v2") ∧
     (∀ p ∈ (splitDataset (buildSpatioTemporalGraph 27 default_inward_edges
         (loadPoseData glossDict0 store0 id))).2.1, p.1 ≠ "v2") ∧
     (∀ part ∈ (splitDataset (buildSpatioTemporalGraph 27 default_inward_edges
         (loadPoseData glossDict0 store0 id))).2.2, ∀ p ∈ part, p.1 ≠ "v2")) :=
  ⟨⟨by decide, by decide⟩,
   c9_missing_keypoint_file_excluded glossDict0 store0 id "v2" (by decide) (by decide)⟩
